import Mathlib

/-!
Verification of the bez vector/matrix library (src/include/basic_vector.h,
src/include/basic_matrix.h) against its specification.

Modelling conventions:
* Machine element type `T` is modelled by `Int` (a signed integral type); the
  unsigned-only constructor gets its own model over `Nat`.
* A `basic_vector<T>` is its element buffer (a list, whose length is the
  source's `_Length` field — every constructor makes them equal) together
  with its `_Status` field.
* A `basic_matrix<T>` is its `_Rows`/`_Columns` fields, the list of row
  buffers, and its `_Status` field.  Each row vector's own `_Status` field is
  independent of the matrix's and is not needed by any statement below, so a
  row is modelled by its element list alone.
* Allocation with `new` never yields `nullptr` (it throws instead), so the
  `BAD_ALLOCATOR` branches are dead and the models take the success branch.
* C++ integer division truncates toward zero: modelled by `Int.tdiv`.
* Operations that in C++ mutate through a reference are modelled by functions
  returning the updated value(s); a C++ function with no assignment to a
  field is modelled by a function returning that field unchanged.
-/

namespace bez

/-- Error status enumeration from basic_vector.h lines 53-59. -/
inductive STATUS where
  | BAD_ALLOCATOR
  | BOUND_ARRAY
  | BAD_INITIALIZED
  | GOOD_ALLOCATOR
  | DIVIDED_ZERO
deriving DecidableEq

/-- Model of `basic_vector<T>` for a signed numeric `T`: the allocated buffer
(`data`, the source's `_Allocator` array of `_Length` elements) and the
`_Status` field. -/
structure basic_vector where
  data : List Int
  status : STATUS

/-- Sized constructor `basic_vector(size_t length)`: zero-filled buffer,
status left at its default `GOOD_ALLOCATOR`. -/
def mkVec (length : Nat) : basic_vector :=
  ⟨List.replicate length 0, STATUS.GOOD_ALLOCATOR⟩

/-- Copy constructor `basic_vector(const basic_vector&)`: copies length and
elements; the status field is NOT copied, so it starts at its default
`GOOD_ALLOCATOR`. -/
def copyVec (other : basic_vector) : basic_vector :=
  ⟨other.data, STATUS.GOOD_ALLOCATOR⟩

/-- Model of `basic_vector<T>` for an unsigned `T`.  The buffer is `none`
when `_Allocator` was never assigned (the source leaves the pointer
uninitialized on the negative-fill path). -/
structure unsigned_vector where
  len : Nat
  alloc : Option (List Nat)
  status : STATUS

/-- Constructor `basic_vector(size_t length, long initializedValue)` (unsigned
`T` only), basic_vector.h lines 142-156.  If `initializedValue < 0` the status
is set to `BAD_INITIALIZED` and — per the source — `_Allocator` is never
assigned (no allocation, no zero fill); otherwise the buffer is allocated and
filled with `static_cast<T>(initializedValue)` (a nonnegative value, modelled
by `Int.toNat`; the wrap-around of casting to a narrower width does not matter
for nonnegative inputs considered here). -/
def mkUnsignedFill (length : Nat) (initializedValue : Int) : unsigned_vector :=
  if initializedValue < 0 then
    ⟨length, none, STATUS.BAD_INITIALIZED⟩
  else
    ⟨length, some (List.replicate length initializedValue.toNat),
      STATUS.GOOD_ALLOCATOR⟩

/-- `operator[]` (basic_vector.h lines 198-214; the const and non-const
overloads have identical bodies): in range, the element is returned and the
vector is untouched; out of range, `_Status` is set to `BOUND_ARRAY` and the
reference `_Allocator[_Length - 1]` — the last element — is returned.
Returns the value read together with the vector's updated state. -/
def idx (v : basic_vector) (index : Nat) : Int × basic_vector :=
  if index < v.data.length then
    (v.data.getD index 0, v)
  else
    (v.data.getD (v.data.length - 1) 0, { v with status := STATUS.BOUND_ARRAY })

/-- `at` (basic_vector.h lines 274 and 282, const and non-const): the body is
just `return _Allocator[index];` — no bounds check and no assignment to
`_Status`.  An out-of-range read is undefined behaviour, modelled by `none`;
the vector's state is returned unchanged because the source writes nothing. -/
def atOp (v : basic_vector) (index : Nat) : Option Int × basic_vector :=
  (v.data.get? index, v)

/-- `set` (basic_vector.h line 264): `_Allocator[index] = value;` — a single
store, no bounds check, no write to `_Status`.  (`List.set` is the in-range
model; an out-of-range store is undefined behaviour in the source and a no-op
here.) -/
def basic_vector.set (v : basic_vector) (value : Int) (index : Nat) :
    basic_vector :=
  { v with data := v.data.set index value }

/-- `sum` (basic_vector.h lines 296-300): left fold of `+` over the buffer. -/
def basic_vector.sum (v : basic_vector) : Int :=
  v.data.foldl (· + ·) 0

/-- Binary `operator/` (basic_vector.h lines 361-370): copy the operand; if
`k == 0` set the copy's status to `DIVIDED_ZERO` and return it with its
elements untouched; otherwise divide every element. -/
def vecDiv (other : basic_vector) (k : Int) : basic_vector :=
  let vec := copyVec other
  if k = 0 then
    { vec with status := STATUS.DIVIDED_ZERO }
  else
    { vec with data := other.data.map (fun x => Int.tdiv x k) }

/-- Compound `operator/=` (basic_vector.h lines 374-381): if `k == 0` set
`_Status` to `DIVIDED_ZERO` and return with elements untouched; otherwise
divide every element in place. -/
def vecDivAssign (v : basic_vector) (k : Int) : basic_vector :=
  if k = 0 then
    { v with status := STATUS.DIVIDED_ZERO }
  else
    { v with data := v.data.map (fun x => Int.tdiv x k) }

/-- Binary `operator+` (basic_vector.h lines 393-404): build a zero vector of
the left length; if the lengths differ, flag it `BOUND_ARRAY` and return it;
otherwise fill it with the element-wise sums. -/
def vecAdd (lhs rhs : basic_vector) : basic_vector :=
  let vec := mkVec lhs.data.length
  if lhs.data.length ≠ rhs.data.length then
    { vec with status := STATUS.BOUND_ARRAY }
  else
    { vec with data := List.zipWith (· + ·) lhs.data rhs.data }

/-- Compound `operator+=` (basic_vector.h lines 413-418): on length mismatch
return `this` with elements and status untouched; otherwise add in place. -/
def vecAddAssign (v other : basic_vector) : basic_vector :=
  if v.data.length ≠ other.data.length then v
  else { v with data := List.zipWith (· + ·) v.data other.data }

/-- Binary `operator-` (basic_vector.h lines 428-438), like `operator+`. -/
def vecSub (lhs rhs : basic_vector) : basic_vector :=
  let vec := mkVec lhs.data.length
  if lhs.data.length ≠ rhs.data.length then
    { vec with status := STATUS.BOUND_ARRAY }
  else
    { vec with data := List.zipWith (· - ·) lhs.data rhs.data }

/-- Compound `operator-=` (basic_vector.h lines 447-452), like `operator+=`. -/
def vecSubAssign (v other : basic_vector) : basic_vector :=
  if v.data.length ≠ other.data.length then v
  else { v with data := List.zipWith (· - ·) v.data other.data }

/-- `std::sort` with the default ascending comparison, as applied to a
vector's buffer by `operator==`. -/
def sortInts (l : List Int) : List Int :=
  List.insertionSort (· ≤ ·) l

/-- `operator==` (basic_vector.h lines 462-475): false if the lengths differ;
otherwise sort freshly made copies `t1`, `t2` of both operands and compare
them element by element.  The operands are only read, never written, so they
are returned unchanged alongside the boolean. -/
def vecEqFull (lhs rhs : basic_vector) :
    Bool × basic_vector × basic_vector :=
  if lhs.data.length ≠ rhs.data.length then
    (false, lhs, rhs)
  else
    let t1 := { copyVec lhs with data := sortInts (copyVec lhs).data }
    let t2 := { copyVec rhs with data := sortInts (copyVec rhs).data }
    (((t1.data.zip t2.data).all fun p => p.1 == p.2), lhs, rhs)

/-- The boolean result of `operator==`. -/
def vecEqB (lhs rhs : basic_vector) : Bool :=
  (vecEqFull lhs rhs).1

/-- `operator!=` (basic_vector.h lines 485-490): true if the lengths differ,
otherwise the negation of `operator==`. -/
def vecNeFull (lhs rhs : basic_vector) :
    Bool × basic_vector × basic_vector :=
  if lhs.data.length ≠ rhs.data.length then
    (true, lhs, rhs)
  else
    (!(vecEqFull lhs rhs).1, lhs, rhs)

/-- The boolean result of `operator!=`. -/
def vecNeB (lhs rhs : basic_vector) : Bool :=
  (vecNeFull lhs rhs).1

/-- `operator<` (basic_vector.h lines 501-504): compares the element sums. -/
def vecLtFull (lhs rhs : basic_vector) :
    Bool × basic_vector × basic_vector :=
  (decide (lhs.sum < rhs.sum), lhs, rhs)

/-- `operator>` (basic_vector.h lines 513-516): `rhs < lhs`. -/
def vecGtFull (lhs rhs : basic_vector) :
    Bool × basic_vector × basic_vector :=
  ((vecLtFull rhs lhs).1, lhs, rhs)

/-- `operator<=` (basic_vector.h lines 526-529): `!(lhs > rhs)`. -/
def vecLeFull (lhs rhs : basic_vector) :
    Bool × basic_vector × basic_vector :=
  (!(vecGtFull lhs rhs).1, lhs, rhs)

/-- `operator>=` (basic_vector.h lines 539-542): `!(lhs < rhs)`. -/
def vecGeFull (lhs rhs : basic_vector) :
    Bool × basic_vector × basic_vector :=
  (!(vecLtFull lhs rhs).1, lhs, rhs)

/-- Model of `basic_matrix<T>`: the `_Rows` and `_Columns` fields, the array
of row vectors (each row modelled by its element list), and the `_Status`
field. -/
structure basic_matrix where
  nrows : Nat
  ncols : Nat
  rows : List (List Int)
  status : STATUS

/-- Constructor `basic_matrix(size_t rows, size_t columns, T value = 0)`
(basic_matrix.h lines 84-92): `rows` row vectors of `columns` copies of
`value` each. -/
def matFill (rows columns : Nat) (value : Int) : basic_matrix :=
  ⟨rows, columns, List.replicate rows (List.replicate columns value),
    STATUS.GOOD_ALLOCATOR⟩

/-- Copy constructor `basic_matrix(const basic_matrix&)` (basic_matrix.h
lines 96-105).  It assigns `_Status`, `_Rows` and the `_Rows` row vectors,
but never assigns `_Columns`, which is therefore left holding an
indeterminate value — modelled by the extra parameter `junkCols`. -/
def matCopy (other : basic_matrix) (junkCols : Nat) : basic_matrix :=
  ⟨other.nrows, junkCols, other.rows, other.status⟩

/-- The structural invariant stated by the spec: the row array holds exactly
`_Rows` rows and every row vector's length equals `_Columns`. -/
def matWF (m : basic_matrix) : Prop :=
  m.rows.length = m.nrows ∧ ∀ row ∈ m.rows, row.length = m.ncols

instance (m : basic_matrix) : Decidable (matWF m) := by
  unfold matWF; infer_instance

/-- The element value produced by the clamping vector `operator[]` on a row
buffer: in range the element itself, out of range the last element. -/
def rowIdxVal (row : List Int) (column : Nat) : Int :=
  if column < row.length then row.getD column 0
  else row.getD (row.length - 1) 0

/-- The element value read by `operator()(row, column)` (basic_matrix.h lines
190-209, const and non-const have identical bodies): if `row < _Rows`,
delegate to the row vector's clamping `operator[]`; otherwise the raw read
`_Allocator[_Rows - 1][_Columns - 1]`.  The source also sets `_Status` fields
(they are `mutable`, so even the const overload writes them); those writes do
not influence any element value read and the claims below do not mention
them, so only the value is modelled. -/
def mget (m : basic_matrix) (row column : Nat) : Int :=
  if row < m.nrows then rowIdxVal (m.rows.getD row []) column
  else (m.rows.getD (m.nrows - 1) []).getD (m.ncols - 1) 0

/-- The element at `(row, column)` of a matrix's stored row array (a plain
in-range read, used to state what a constructed matrix holds). -/
def matEntry (m : basic_matrix) (row column : Nat) : Int :=
  (m.rows.getD row []).getD column 0

/-- The buffer produced by vector binary `operator+` on two row buffers
(the data component of `vecAdd`). -/
def rowAdd (a b : List Int) : List Int :=
  if a.length ≠ b.length then List.replicate a.length 0
  else List.zipWith (· + ·) a b

/-- The buffer produced by vector binary `operator-` on two row buffers. -/
def rowSub (a b : List Int) : List Int :=
  if a.length ≠ b.length then List.replicate a.length 0
  else List.zipWith (· - ·) a b

/-- The buffer produced by vector `operator+=` on two row buffers: unchanged
on length mismatch. -/
def rowAddAssign (a b : List Int) : List Int :=
  if a.length ≠ b.length then a else List.zipWith (· + ·) a b

/-- The buffer produced by vector `operator-=` on two row buffers. -/
def rowSubAssign (a b : List Int) : List Int :=
  if a.length ≠ b.length then a else List.zipWith (· - ·) a b

/-- Matrix binary `operator+` (basic_matrix.h lines 212-224): copy the left
operand (through the `_Columns`-dropping copy constructor, hence the
`junkCols` parameter); if `lhs._Rows != rhs._Rows && lhs._Columns !=
rhs._Columns` — i.e. only when BOTH dimensions differ — flag the copy
`BOUND_ARRAY` and return it; otherwise overwrite each of the first
`lhs._Rows` rows with the vector sum of the operands' rows.  (When the row
counts differ but the column counts agree, the loop still runs and the read
of `rhs._Allocator[i]` for `i >= rhs._Rows` is out of bounds in the source;
the model reads the empty list there.) -/
def matAdd (lhs rhs : basic_matrix) (junkCols : Nat) : basic_matrix :=
  let matrix := matCopy lhs junkCols
  if lhs.nrows ≠ rhs.nrows ∧ lhs.ncols ≠ rhs.ncols then
    { matrix with status := STATUS.BOUND_ARRAY }
  else
    { matrix with
      rows := (List.range lhs.nrows).map fun i =>
        rowAdd (lhs.rows.getD i []) (rhs.rows.getD i []) }

/-- Matrix binary `operator-` (basic_matrix.h lines 227-239), like `+`. -/
def matSub (lhs rhs : basic_matrix) (junkCols : Nat) : basic_matrix :=
  let matrix := matCopy lhs junkCols
  if lhs.nrows ≠ rhs.nrows ∧ lhs.ncols ≠ rhs.ncols then
    { matrix with status := STATUS.BOUND_ARRAY }
  else
    { matrix with
      rows := (List.range lhs.nrows).map fun i =>
        rowSub (lhs.rows.getD i []) (rhs.rows.getD i []) }

/-- Matrix compound `operator+=` (basic_matrix.h lines 296-301): return
`this` unchanged when BOTH dimensions differ; otherwise apply vector
`operator+=` row by row. -/
def matAddAssign (m other : basic_matrix) : basic_matrix :=
  if m.nrows ≠ other.nrows ∧ m.ncols ≠ other.ncols then m
  else
    { m with
      rows := (List.range m.nrows).map fun i =>
        rowAddAssign (m.rows.getD i []) (other.rows.getD i []) }

/-- Matrix compound `operator-=` (basic_matrix.h lines 304-309). -/
def matSubAssign (m other : basic_matrix) : basic_matrix :=
  if m.nrows ≠ other.nrows ∧ m.ncols ≠ other.ncols then m
  else
    { m with
      rows := (List.range m.nrows).map fun i =>
        rowSubAssign (m.rows.getD i []) (other.rows.getD i []) }

/-- One accumulated entry of the multiplication loops (basic_matrix.h lines
265-268 and 339-342): starting from the zero entry, `inner` runs from `0` to
the chosen row dimension `n`, adding `lhs(row, inner) * rhs(inner, col)`
through the clamping accessors. -/
def mulEntry (lhs rhs : basic_matrix) (n row col : Nat) : Int :=
  (List.range n).foldl
    (fun acc inner => acc + mget lhs row inner * mget rhs inner col) 0

/-- The row dimension chosen by the multiplication operators (basic_matrix.h
lines 254-261): `lhs._Rows` when `lhs._Rows >= rhs._Columns`, else
`lhs._Columns`. -/
def mulRowsDim (lhs rhs : basic_matrix) : Nat :=
  if lhs.nrows ≥ rhs.ncols then lhs.nrows else lhs.ncols

/-- The column dimension chosen by the multiplication operators:
`rhs._Columns` when `lhs._Rows >= rhs._Columns`, else `rhs._Rows`. -/
def mulColsDim (lhs rhs : basic_matrix) : Nat :=
  if lhs.nrows ≥ rhs.ncols then rhs.ncols else rhs.nrows

/-- The compatible-case product matrix shared by `operator*` and
`operator*=`: dimensions chosen by `mulRowsDim`/`mulColsDim`, each entry
accumulated by `mulEntry` over the chosen row dimension.  The result starts
as `basic_matrix(rows, columns)` (zero-filled, status at its default
`GOOD_ALLOCATOR`) and every write of the loop is in range. -/
def matMulCore (lhs rhs : basic_matrix) : basic_matrix :=
  ⟨mulRowsDim lhs rhs, mulColsDim lhs rhs,
    (List.range (mulRowsDim lhs rhs)).map fun row =>
      (List.range (mulColsDim lhs rhs)).map fun col =>
        mulEntry lhs rhs (mulRowsDim lhs rhs) row col,
    STATUS.GOOD_ALLOCATOR⟩

/-- Matrix binary `operator*` (basic_matrix.h lines 249-271): if
`lhs._Rows != rhs._Columns && lhs._Columns != rhs._Rows` return the
degenerate `basic_matrix{1, 1}` (a 1x1 zero matrix); otherwise the
`matMulCore` product. -/
def matMul (lhs rhs : basic_matrix) : basic_matrix :=
  if lhs.nrows ≠ rhs.ncols ∧ lhs.ncols ≠ rhs.nrows then matFill 1 1 0
  else matMulCore lhs rhs

/-- Matrix compound `operator*=` (basic_matrix.h lines 325-346): same
compatibility test, returning `this` unchanged when it fails; otherwise the
same product matrix is built from the original `this` and then copied into
`this` by `operator=` (which copies `_Rows`, `_Columns`, the rows and the
computed matrix's status). -/
def matMulAssign (m other : basic_matrix) : basic_matrix :=
  if m.nrows ≠ other.ncols ∧ m.ncols ≠ other.nrows then m
  else matMulCore m other

/-- The buffer produced by vector binary `operator/` on a row buffer for a
non-zero divisor. -/
def rowDiv (row : List Int) (k : Int) : List Int :=
  row.map (fun x => Int.tdiv x k)

/-- Matrix binary `operator/` (basic_matrix.h lines 280-293): copy the
operand (copying its status, through the `_Columns`-dropping copy
constructor); if `k == 0` set the copy's status to `DIVIDED_ZERO` and return
it with its rows untouched; otherwise replace each row with the row divided
element-wise.  Modelled from the spec: the source's loop bound is
`other.size()`, a member `basic_matrix` does not declare; the spec says
"divide every element by k" and the loop body indexes the row array, so the
bound is modelled as the row count. -/
def matDiv (other : basic_matrix) (k : Int) (junkCols : Nat) : basic_matrix :=
  let matrix := matCopy other junkCols
  if k = 0 then
    { matrix with status := STATUS.DIVIDED_ZERO }
  else
    { matrix with rows := other.rows.map (fun row => rowDiv row k) }

/-- Matrix compound `operator/=` (basic_matrix.h lines 311-322): if `k == 0`
set `_Status` to `DIVIDED_ZERO` and return with elements untouched;
otherwise apply vector `operator/=` to each row. -/
def matDivAssign (m : basic_matrix) (k : Int) : basic_matrix :=
  if k = 0 then
    { m with status := STATUS.DIVIDED_ZERO }
  else
    { m with rows := m.rows.map (fun row => rowDiv row k) }

/-- Matrix `operator==` (basic_matrix.h lines 369-378): false when BOTH
dimensions differ; otherwise true iff no row pair differs under the vector's
`operator!=`.  Operands are only read. -/
def matEqFull (lhs rhs : basic_matrix) :
    Bool × basic_matrix × basic_matrix :=
  if lhs.nrows ≠ rhs.nrows ∧ lhs.ncols ≠ rhs.ncols then
    (false, lhs, rhs)
  else
    (((List.range lhs.nrows).all fun row =>
        !vecNeB ⟨lhs.rows.getD row [], STATUS.GOOD_ALLOCATOR⟩
          ⟨rhs.rows.getD row [], STATUS.GOOD_ALLOCATOR⟩), lhs, rhs)

/-- Matrix `operator!=` (basic_matrix.h lines 380-383). -/
def matNeFull (lhs rhs : basic_matrix) :
    Bool × basic_matrix × basic_matrix :=
  (!(matEqFull lhs rhs).1, lhs, rhs)

/-- The sum of all row sums, as accumulated by matrix `operator<`. -/
def matSum (m : basic_matrix) : Int :=
  m.rows.foldl (fun acc row => acc + row.foldl (· + ·) 0) 0

/-- Matrix `operator<` (basic_matrix.h lines 393-404): compares the total
sums of the two matrices. -/
def matLtFull (lhs rhs : basic_matrix) :
    Bool × basic_matrix × basic_matrix :=
  (decide (matSum lhs < matSum rhs), lhs, rhs)

/-- Matrix `operator>` (basic_matrix.h lines 406-409). -/
def matGtFull (lhs rhs : basic_matrix) :
    Bool × basic_matrix × basic_matrix :=
  ((matLtFull rhs lhs).1, lhs, rhs)

/-- Matrix `operator<=` (basic_matrix.h lines 411-414). -/
def matLeFull (lhs rhs : basic_matrix) :
    Bool × basic_matrix × basic_matrix :=
  (!(matGtFull lhs rhs).1, lhs, rhs)

/-- Matrix `operator>=` (basic_matrix.h lines 416-419). -/
def matGeFull (lhs rhs : basic_matrix) :
    Bool × basic_matrix × basic_matrix :=
  (!(matLtFull lhs rhs).1, lhs, rhs)

lemma getD_map_range {α : Type} (f : Nat → α) (d : α) {n r : Nat} (h : r < n) :
    ((List.range n).map f).getD r d = f r := by
  simp [List.getD_eq_getElem?_getD, List.getElem?_map, List.getElem?_range, h]

lemma foldl_add_range (g : Nat → Int) (n : Nat) :
    (List.range n).foldl (fun acc i => acc + g i) 0 =
      ((List.range n).map g).sum := by
  induction n with
  | zero => simp
  | succ n ih => simp [List.range_succ, ih]

lemma mulEntry_eq_sum (lhs rhs : basic_matrix) (n row col : Nat) :
    mulEntry lhs rhs n row col =
      ((List.range n).map
        fun inner => mget lhs row inner * mget rhs inner col).sum :=
  foldl_add_range _ n

lemma zip_all_beq_iff (s t : List Int) (h : s.length = t.length) :
    ((s.zip t).all fun p => p.1 == p.2) = true ↔ s = t := by
  induction s generalizing t with
  | nil => cases t <;> simp_all
  | cons a s ih => cases t <;> simp_all [ih]

lemma sortInts_perm (l : List Int) : (sortInts l).Perm l :=
  List.perm_insertionSort _ l

lemma sortInts_sorted (l : List Int) : List.Sorted (· ≤ ·) (sortInts l) :=
  List.sorted_insertionSort _ l

lemma sortInts_length (l : List Int) : (sortInts l).length = l.length :=
  (sortInts_perm l).length_eq

lemma vecEqB_iff_perm (lhs rhs : basic_vector) :
    vecEqB lhs rhs = true ↔ lhs.data.Perm rhs.data := by
  unfold vecEqB vecEqFull
  split
  · rename_i hlen
    simp only [copyVec]
    constructor
    · intro h; cases h
    · intro hp; exact absurd hp.length_eq hlen
  · rename_i hlen
    rw [Decidable.not_not] at hlen
    simp only [copyVec]
    rw [zip_all_beq_iff _ _ (by rw [sortInts_length, sortInts_length, hlen])]
    constructor
    · intro h
      exact ((sortInts_perm lhs.data).symm.trans (h ▸ sortInts_perm rhs.data))
    · intro hp
      exact List.eq_of_perm_of_sorted
        ((sortInts_perm lhs.data).trans (hp.trans (sortInts_perm rhs.data).symm))
        (sortInts_sorted lhs.data) (sortInts_sorted rhs.data)

/-- C2: constructing an unsigned vector of any length with the negative fill
value -1 sets the status to BAD_INITIALIZED, but — contrary to the claim and
to the constructor's own documentation — the element buffer is never
allocated, let alone zero-filled: no index reads 0, every read is undefined
behaviour. -/
theorem c2_unsigned_negative_fill_unallocated (N : Nat) :
    mkUnsignedFill N (-1) = ⟨N, none, STATUS.BAD_INITIALIZED⟩ :=
  rfl

/-- C3 counterexample: on the length-1 vector [7], the claim says `at 5`
(out of range) sets the status to BOUND_ARRAY; in the source `at` performs
no bounds check and never writes the status, so the status stays
GOOD_ALLOCATOR. -/
theorem c3_at_counterexample :
    ¬ ((atOp ⟨[7], STATUS.GOOD_ALLOCATOR⟩ 5).2.status =
        STATUS.BOUND_ARRAY) := by
  decide

/-- C3 amended: for a vector of length N >= 1, `operator[]` returns the
element with no status change in range, and out of range sets BOUND_ARRAY
and returns the element at N-1; `at` is an unchecked access — in range it
returns the element with no status change, and it never modifies the status
(an out-of-range `at` is an undefined-behaviour read, not a redirect). -/
theorem c3_indexing_amended (v : basic_vector) (i : Nat)
    (h : 1 ≤ v.data.length) :
    (i < v.data.length →
      idx v i = (v.data.getD i 0, v) ∧
      atOp v i = (some (v.data.getD i 0), v)) ∧
    (v.data.length ≤ i →
      idx v i =
        (v.data.getD (v.data.length - 1) 0,
          { v with status := STATUS.BOUND_ARRAY }) ∧
      (atOp v i).2 = v) := by
  constructor
  · intro hi
    refine ⟨by simp [idx, hi], ?_⟩
    simp [atOp, List.getD_eq_getElem?_getD, List.get?_eq_getElem?,
      List.getElem?_eq_getElem hi]
  · intro hi
    have hlt : ¬ i < v.data.length := Nat.not_lt.mpr hi
    exact ⟨by simp [idx, hlt], rfl⟩

/-- C3 witness: the amended indexing theorem evaluated on the vector [5, 6],
in range at index 1 and out of range at index 9. -/
theorem c3_indexing_amended_witness :
    idx ⟨[5, 6], STATUS.GOOD_ALLOCATOR⟩ 1 =
      (6, ⟨[5, 6], STATUS.GOOD_ALLOCATOR⟩) ∧
    (atOp ⟨[5, 6], STATUS.GOOD_ALLOCATOR⟩ 9).2 =
      ⟨[5, 6], STATUS.GOOD_ALLOCATOR⟩ := by
  constructor
  · exact ((c3_indexing_amended ⟨[5, 6], STATUS.GOOD_ALLOCATOR⟩ 1
      (by decide)).1 (by decide)).1
  · exact ((c3_indexing_amended ⟨[5, 6], STATUS.GOOD_ALLOCATOR⟩ 9
      (by decide)).2 (by decide)).2

/-- C6: adding or subtracting vectors of different lengths gives a
zero-filled vector of the left length with status BOUND_ARRAY for the binary
forms, while the compound forms return `this` with elements and status both
unchanged. -/
theorem c6_vector_add_sub_mismatch (lhs rhs : basic_vector)
    (h : lhs.data.length ≠ rhs.data.length) :
    vecAdd lhs rhs =
      ⟨List.replicate lhs.data.length 0, STATUS.BOUND_ARRAY⟩ ∧
    vecSub lhs rhs =
      ⟨List.replicate lhs.data.length 0, STATUS.BOUND_ARRAY⟩ ∧
    vecAddAssign lhs rhs = lhs ∧
    vecSubAssign lhs rhs = lhs := by
  simp [vecAdd, vecSub, vecAddAssign, vecSubAssign, mkVec, h]

/-- C6 witness: the mismatch theorem evaluated on vectors of lengths 3 and
4. -/
theorem c6_vector_add_sub_mismatch_witness :
    vecAdd ⟨[1, 2, 3], STATUS.GOOD_ALLOCATOR⟩
        ⟨[1, 2, 3, 4], STATUS.GOOD_ALLOCATOR⟩ =
      ⟨[0, 0, 0], STATUS.BOUND_ARRAY⟩ ∧
    vecAddAssign ⟨[1, 2, 3], STATUS.GOOD_ALLOCATOR⟩
        ⟨[1, 2, 3, 4], STATUS.GOOD_ALLOCATOR⟩ =
      ⟨[1, 2, 3], STATUS.GOOD_ALLOCATOR⟩ := by
  have h := c6_vector_add_sub_mismatch ⟨[1, 2, 3], STATUS.GOOD_ALLOCATOR⟩
    ⟨[1, 2, 3, 4], STATUS.GOOD_ALLOCATOR⟩ (by decide)
  exact ⟨h.1, h.2.2.1⟩

/-- C8: the copy constructor never assigns the `_Columns` field, so the copy
of a 2x3 zero matrix can report any column count (here 7) while its rows
keep length 3 — the claimed invariant "every row vector has length equal to
columnCount" fails on copy-constructed matrices. -/
theorem c8_copy_breaks_row_length_invariant :
    (matCopy (matFill 2 3 0) 7).ncols = 7 ∧
    (matCopy (matFill 2 3 0) 7).rows = [[0, 0, 0], [0, 0, 0]] ∧
    ¬ matWF (matCopy (matFill 2 3 0) 7) := by
  decide

/-- C9: `set value i` on a vector stores `value` at an in-range position `i`
and leaves every other element, the length, and (unconditionally, since the
body writes no status) the status field unchanged. -/
theorem c9_set_frame (v : basic_vector) (value : Int) (i : Nat) :
    (basic_vector.set v value i).status = v.status ∧
    (basic_vector.set v value i).data.length = v.data.length ∧
    (i < v.data.length →
      (basic_vector.set v value i).data.getD i 0 = value ∧
      ∀ j, j < v.data.length → j ≠ i →
        (basic_vector.set v value i).data.getD j 0 = v.data.getD j 0) := by
  refine ⟨rfl, by simp [basic_vector.set], ?_⟩
  intro hi
  constructor
  · simp [basic_vector.set, List.getD_eq_getElem?_getD, List.getElem?_set, hi]
  · intro j hj hne
    simp [basic_vector.set, List.getD_eq_getElem?_getD, List.getElem?_set,
      hne.symm]

/-- C9 witness: the frame theorem for `set` evaluated on the vector
[1, 2, 3], storing 9 at index 1. -/
theorem c9_set_frame_witness :
    (basic_vector.set ⟨[1, 2, 3], STATUS.GOOD_ALLOCATOR⟩ 9 1).status =
      STATUS.GOOD_ALLOCATOR ∧
    (basic_vector.set ⟨[1, 2, 3], STATUS.GOOD_ALLOCATOR⟩ 9 1).data.getD 1 0 =
      9 ∧
    (basic_vector.set ⟨[1, 2, 3], STATUS.GOOD_ALLOCATOR⟩ 9 1).data.getD 2 0 =
      3 := by
  have h := c9_set_frame ⟨[1, 2, 3], STATUS.GOOD_ALLOCATOR⟩ 9 1
  exact ⟨h.1, (h.2.2 (by decide)).1,
    (h.2.2 (by decide)).2 2 (by decide) (by decide)⟩

/-- C10: every comparison operator of both containers — ==, !=, <, >, <=,
>= — returns both operands entirely unchanged (elements, dimensions and
status fields); == sorts freshly made copies, never the operands
themselves. -/
theorem c10_comparisons_pure (v w : basic_vector) (A B : basic_matrix) :
    (vecEqFull v w).2 = (v, w) ∧
    (vecNeFull v w).2 = (v, w) ∧
    (vecLtFull v w).2 = (v, w) ∧
    (vecGtFull v w).2 = (v, w) ∧
    (vecLeFull v w).2 = (v, w) ∧
    (vecGeFull v w).2 = (v, w) ∧
    (matEqFull A B).2 = (A, B) ∧
    (matNeFull A B).2 = (A, B) ∧
    (matLtFull A B).2 = (A, B) ∧
    (matGtFull A B).2 = (A, B) ∧
    (matLeFull A B).2 = (A, B) ∧
    (matGeFull A B).2 = (A, B) := by
  refine ⟨?_, ?_, rfl, rfl, rfl, rfl, ?_, rfl, rfl, rfl, rfl, rfl⟩
  · unfold vecEqFull; split <;> rfl
  · unfold vecNeFull; split <;> rfl
  · unfold matEqFull; split <;> rfl

/-- C4 counterexample: for the 1x2 matrix [[1, 2]] and the 2x2 matrix
[[10, 20], [30, 40]] the row counts differ (a dimension mismatch in the
claim's sense), yet — because the source tests the mismatch with && — binary
+ performs the element-wise addition and does not set BOUND_ARRAY. -/
theorem c4_add_counterexample :
    (matAdd ⟨1, 2, [[1, 2]], STATUS.GOOD_ALLOCATOR⟩
        ⟨2, 2, [[10, 20], [30, 40]], STATUS.GOOD_ALLOCATOR⟩ 2).status ≠
      STATUS.BOUND_ARRAY ∧
    (matAdd ⟨1, 2, [[1, 2]], STATUS.GOOD_ALLOCATOR⟩
        ⟨2, 2, [[10, 20], [30, 40]], STATUS.GOOD_ALLOCATOR⟩ 2).rows =
      [[11, 22]] := by
  decide

/-- C4 amended: only when BOTH the row counts and the column counts differ
do binary matrix + and - skip the operation and return a copy of the left
operand (its rows, row count and status, with the column count left
indeterminate by the copy constructor) flagged BOUND_ARRAY, while compound
+= and -= return `this` unchanged. -/
theorem c4_mismatch_both_dims (A B : basic_matrix) (junkCols : Nat)
    (hr : A.nrows ≠ B.nrows) (hc : A.ncols ≠ B.ncols) :
    matAdd A B junkCols = ⟨A.nrows, junkCols, A.rows, STATUS.BOUND_ARRAY⟩ ∧
    matSub A B junkCols = ⟨A.nrows, junkCols, A.rows, STATUS.BOUND_ARRAY⟩ ∧
    matAddAssign A B = A ∧
    matSubAssign A B = A := by
  simp [matAdd, matSub, matAddAssign, matSubAssign, matCopy, hr, hc]

/-- C4 witness: the both-dimensions-differ theorem evaluated on a 1x2 and a
2x3 matrix. -/
theorem c4_mismatch_both_dims_witness :
    matAdd ⟨1, 2, [[1, 2]], STATUS.GOOD_ALLOCATOR⟩
        ⟨2, 3, [[0, 0, 0], [0, 0, 0]], STATUS.GOOD_ALLOCATOR⟩ 9 =
      ⟨1, 9, [[1, 2]], STATUS.BOUND_ARRAY⟩ ∧
    matAddAssign ⟨1, 2, [[1, 2]], STATUS.GOOD_ALLOCATOR⟩
        ⟨2, 3, [[0, 0, 0], [0, 0, 0]], STATUS.GOOD_ALLOCATOR⟩ =
      ⟨1, 2, [[1, 2]], STATUS.GOOD_ALLOCATOR⟩ := by
  have h := c4_mismatch_both_dims ⟨1, 2, [[1, 2]], STATUS.GOOD_ALLOCATOR⟩
    ⟨2, 3, [[0, 0, 0], [0, 0, 0]], STATUS.GOOD_ALLOCATOR⟩ 9
    (by decide) (by decide)
  exact ⟨h.1, h.2.2.1⟩

/-- C5: dividing a vector or a matrix by the scalar zero is atomic — the
binary forms return a copy with the operand's elements and status
DIVIDED_ZERO, the compound forms leave the elements unchanged and set status
DIVIDED_ZERO — and the element-wise division runs only for a non-zero
divisor. -/
theorem c5_division_by_zero_atomic (v : basic_vector) (m : basic_matrix)
    (k : Int) (junkCols : Nat) :
    vecDiv v 0 = ⟨v.data, STATUS.DIVIDED_ZERO⟩ ∧
    vecDivAssign v 0 = { v with status := STATUS.DIVIDED_ZERO } ∧
    matDiv m 0 junkCols = ⟨m.nrows, junkCols, m.rows, STATUS.DIVIDED_ZERO⟩ ∧
    matDivAssign m 0 = { m with status := STATUS.DIVIDED_ZERO } ∧
    (k ≠ 0 →
      vecDiv v k =
        ⟨v.data.map (fun x => Int.tdiv x k), STATUS.GOOD_ALLOCATOR⟩ ∧
      vecDivAssign v k =
        { v with data := v.data.map (fun x => Int.tdiv x k) } ∧
      matDiv m k junkCols =
        ⟨m.nrows, junkCols, m.rows.map (fun row => rowDiv row k),
          m.status⟩ ∧
      matDivAssign m k =
        { m with rows := m.rows.map (fun row => rowDiv row k) }) := by
  refine ⟨by simp [vecDiv, copyVec], by simp [vecDivAssign],
    by simp [matDiv, matCopy], by simp [matDivAssign], ?_⟩
  intro hk
  exact ⟨by simp [vecDiv, copyVec, hk], by simp [vecDivAssign, hk],
    by simp [matDiv, matCopy, hk], by simp [matDivAssign, hk]⟩

/-- C5 witness: division evaluated on the vector [2, 4, 6] (by 0 and by 2)
and on the 1x3 matrix [[2, 4, 6]] (by 0). -/
theorem c5_division_by_zero_atomic_witness :
    vecDiv ⟨[2, 4, 6], STATUS.GOOD_ALLOCATOR⟩ 0 =
      ⟨[2, 4, 6], STATUS.DIVIDED_ZERO⟩ ∧
    vecDiv ⟨[2, 4, 6], STATUS.GOOD_ALLOCATOR⟩ 2 =
      ⟨[1, 2, 3], STATUS.GOOD_ALLOCATOR⟩ ∧
    matDivAssign ⟨1, 3, [[2, 4, 6]], STATUS.GOOD_ALLOCATOR⟩ 0 =
      ⟨1, 3, [[2, 4, 6]], STATUS.DIVIDED_ZERO⟩ := by
  have h := c5_division_by_zero_atomic ⟨[2, 4, 6], STATUS.GOOD_ALLOCATOR⟩
    ⟨1, 3, [[2, 4, 6]], STATUS.GOOD_ALLOCATOR⟩ 2 0
  refine ⟨h.1, ?_, h.2.2.2.1⟩
  rw [(h.2.2.2.2 (by decide)).1]
  rfl

/-- C7: vector == is false whenever the lengths differ, and in general is
true exactly when the two element buffers are permutations of each other
(multiset equality via sorted copies, not positional equality); != is its
negation; in particular [1,2,3] == [3,2,1] and not [1,2,3] == [1,2]. -/
theorem c7_vector_equality_multiset (lhs rhs : basic_vector) :
    (lhs.data.length ≠ rhs.data.length → vecEqB lhs rhs = false) ∧
    (vecEqB lhs rhs = true ↔ lhs.data.Perm rhs.data) ∧
    vecNeB lhs rhs = !vecEqB lhs rhs ∧
    vecEqB ⟨[1, 2, 3], STATUS.GOOD_ALLOCATOR⟩
      ⟨[3, 2, 1], STATUS.GOOD_ALLOCATOR⟩ = true ∧
    vecEqB ⟨[1, 2, 3], STATUS.GOOD_ALLOCATOR⟩
      ⟨[1, 2], STATUS.GOOD_ALLOCATOR⟩ = false := by
  refine ⟨?_, vecEqB_iff_perm lhs rhs, ?_, by decide, by decide⟩
  · intro h
    simp [vecEqB, vecEqFull, h]
  · by_cases h : lhs.data.length = rhs.data.length
    · simp [vecNeB, vecNeFull, vecEqB, h]
    · simp [vecNeB, vecNeFull, vecEqB, vecEqFull, h]

/-- C7 witness: the equality theorem evaluated on [1, 2] against [2, 1]
(permutations, so equal) and on [1, 2, 3] against [1, 2] (length mismatch,
so unequal). -/
theorem c7_vector_equality_multiset_witness :
    vecEqB ⟨[1, 2], STATUS.GOOD_ALLOCATOR⟩
      ⟨[2, 1], STATUS.GOOD_ALLOCATOR⟩ = true ∧
    vecEqB ⟨[7], STATUS.GOOD_ALLOCATOR⟩
      ⟨[7, 7], STATUS.GOOD_ALLOCATOR⟩ = false := by
  constructor
  · exact (c7_vector_equality_multiset ⟨[1, 2], STATUS.GOOD_ALLOCATOR⟩
      ⟨[2, 1], STATUS.GOOD_ALLOCATOR⟩).2.1.mpr (by decide)
  · exact (c7_vector_equality_multiset ⟨[7], STATUS.GOOD_ALLOCATOR⟩
      ⟨[7, 7], STATUS.GOOD_ALLOCATOR⟩).1 (by decide)

/-- C1: matrix multiplication tests compatibility by comparing lhs rows to
rhs columns and lhs columns to rhs rows (incompatible when both pairs
differ); when incompatible, binary * returns the 1x1 zero matrix and
compound *= returns `this` unchanged; when compatible, the result is
(lhs rows, rhs columns) if lhs rows >= rhs columns and otherwise
(lhs columns, rhs rows), each entry being the sum over `inner` below the
chosen row dimension of `lhs(row, inner) * rhs(inner, col)` read through the
clamping accessors, and *= assigns that same product matrix. -/
theorem c1_matrix_mul_spec (A B : basic_matrix) :
    ((A.nrows ≠ B.ncols ∧ A.ncols ≠ B.nrows) →
      matMul A B = matFill 1 1 0 ∧ matMulAssign A B = A) ∧
    ((A.nrows = B.ncols ∨ A.ncols = B.nrows) →
      ((A.nrows ≥ B.ncols →
          (matMul A B).nrows = A.nrows ∧ (matMul A B).ncols = B.ncols) ∧
       (¬ A.nrows ≥ B.ncols →
          (matMul A B).nrows = A.ncols ∧ (matMul A B).ncols = B.nrows) ∧
       (∀ row col, row < (matMul A B).nrows → col < (matMul A B).ncols →
          matEntry (matMul A B) row col =
            ((List.range ((matMul A B).nrows)).map
              fun inner => mget A row inner * mget B inner col).sum) ∧
       matMulAssign A B = matMul A B)) := by
  constructor
  · intro h
    simp [matMul, matMulAssign, h]
  · intro h
    have hg : ¬ (A.nrows ≠ B.ncols ∧ A.ncols ≠ B.nrows) := by
      rcases h with h | h <;> simp [h]
    have hm : matMul A B = matMulCore A B := by simp [matMul, hg]
    have hma : matMulAssign A B = matMulCore A B := by simp [matMulAssign, hg]
    rw [hm, hma]
    refine ⟨?_, ?_, ?_, rfl⟩
    · intro hge
      constructor <;> simp [matMulCore, mulRowsDim, mulColsDim, hge]
    · intro hge
      constructor <;> simp [matMulCore, mulRowsDim, mulColsDim, hge]
    · intro row col hrow hcol
      have hrow' : row < mulRowsDim A B := hrow
      have hcol' : col < mulColsDim A B := hcol
      show matEntry (matMulCore A B) row col = _
      unfold matEntry matMulCore
      simp only
      rw [getD_map_range _ _ hrow', getD_map_range _ _ hcol']
      exact mulEntry_eq_sum A B _ row col

/-- C1 witness: multiplication evaluated on an incompatible 2x2 / 3x3 pair
(degenerate 1x1 zero result) and on the compatible pair of a 1x2 matrix of
fives and a 2x3 matrix of sevens, whose chosen dimensions are 2x2. -/
theorem c1_matrix_mul_spec_witness :
    matMul ⟨2, 2, [[1, 0], [0, 1]], STATUS.GOOD_ALLOCATOR⟩
        ⟨3, 3, [[1]], STATUS.GOOD_ALLOCATOR⟩ = matFill 1 1 0 ∧
    matMulAssign ⟨2, 2, [[1, 0], [0, 1]], STATUS.GOOD_ALLOCATOR⟩
        ⟨3, 3, [[1]], STATUS.GOOD_ALLOCATOR⟩ =
      ⟨2, 2, [[1, 0], [0, 1]], STATUS.GOOD_ALLOCATOR⟩ ∧
    (matMul (matFill 1 2 5) (matFill 2 3 7)).nrows = 2 ∧
    (matMul (matFill 1 2 5) (matFill 2 3 7)).ncols = 2 ∧
    matEntry (matMul (matFill 1 2 5) (matFill 2 3 7)) 0 0 =
      ((List.range ((matMul (matFill 1 2 5) (matFill 2 3 7)).nrows)).map
        fun inner =>
          mget (matFill 1 2 5) 0 inner * mget (matFill 2 3 7) inner 0).sum := by
  have h1 := (c1_matrix_mul_spec ⟨2, 2, [[1, 0], [0, 1]], STATUS.GOOD_ALLOCATOR⟩
    ⟨3, 3, [[1]], STATUS.GOOD_ALLOCATOR⟩).1 (by decide)
  have h2 := (c1_matrix_mul_spec (matFill 1 2 5) (matFill 2 3 7)).2 (by decide)
  exact ⟨h1.1, h1.2, (h2.2.1 (by decide)).1, (h2.2.1 (by decide)).2,
    h2.2.2.1 0 0 (by decide) (by decide)⟩

end bez
